import Mathlib

/-!
Verification development for the DemandTools wrapper
(`src/demandtools_wrapper.py`).

The embedding models:
  * `DemandToolsExceptionFactory` — the pure classifier mapping a stderr
    blob to the exception class raised for it (spec: ExceptionClassifier
    returning a FailureCategory);
  * `mkRunner` — the validation performed by `DemandToolsCommand.__init__`
    (spec: CommandRunner construction; validation failures raised there are
    the spec's ConfigurationError);
  * `runFrom` / `DemandToolsCommand.run` — the recursive retry state
    machine of `DemandToolsCommand.run`, with the engine subprocess
    modelled as a stream of per-attempt results (exit code and captured
    stderr) and the filesystem check for the input file as a boolean;
  * `LogWatcher.processLine` — the per-line normalization performed by
    `LogWatcher.run` while tailing, and `LogWatcher.stop`.

Strings are Lean `String`s; Python `bytes.decode` is modelled as the
identity (stderr is carried as text throughout).  OS side effects
(process priority, window flags, the actual `Popen`) are represented only
by the counters and line trace in `RunOutcome`.
-/

namespace DTWrapper

/-- Python truthiness of an optional string argument: `None` and the empty
string are falsy, any other string is truthy (used for `if not
self.scenario_path`, `if self.input_file:` and friends). -/
def pyTruthyStr : Option String → Bool
  | none => false
  | some s => !(s == "")

/-- Decides whether `pat` is a leading segment of `l` (Python
`str.startswith`, used to build the substring test below). -/
def isPrefixList : List Char → List Char → Bool
  | [], _ => true
  | _ :: _, [] => false
  | a :: asx, b :: bs => a == b && isPrefixList asx bs

/-- Decides whether `sub` occurs contiguously inside `hay`. -/
def containsList (sub : List Char) : List Char → Bool
  | [] => isPrefixList sub []
  | c :: rest => isPrefixList sub (c :: rest) || containsList sub rest

/-- Python's `sub in hay` substring test on strings. -/
def strContains (hay sub : String) : Bool :=
  containsList sub.toList hay.toList

/-- The exception classes the wrapper deals in.  The first four are the
wrapper's own classes (the spec's closed FailureCategory set); the last
two stand for arbitrary other Python classes that a caller could place in
`exceptions_to_retry_on`: `otherException` is any `Exception` subclass
outside the wrapper's set (e.g. `ValueError`), `nonException` is any
class that does not inherit from `Exception`. -/
inductive DTClass where
  | dbWriteConflict
  | objectReference
  | command
  | inputFileMissing
  | otherException
  | nonException
deriving DecidableEq, Repr

/-- Python `issubclass(e, Exception)` on the classes modelled here. -/
def issubclassOfException : DTClass → Bool
  | DTClass.nonException => false
  | _ => true

/-- Membership in the spec's closed FailureCategory set
{DBAccessCollision, ObjectReferenceFault, InputFileMissing,
GenericCommandFailure}. -/
def isFailureCategory : DTClass → Bool
  | DTClass.dbWriteConflict => true
  | DTClass.objectReference => true
  | DTClass.inputFileMissing => true
  | DTClass.command => true
  | _ => false

/-- First required sentence of the DB-access-collision signature
(source line 112). -/
def sig_db1 : String := "because it is being used by another process"

/-- Second required sentence of the DB-access-collision signature
(source line 113). -/
def sig_db2 : String := "The process cannot access the file"

/-- The object-reference signature sentence (source line 117). -/
def sig_objref : String := "Object reference not set to an instance of an object"

/-- The classifier (source lines 96-124): all sentences of a signature
must occur in the stderr text; DB collision is checked first, then object
reference, else the generic command exception. -/
def DemandToolsExceptionFactory (s : String) : DTClass :=
  if strContains s sig_db1 && strContains s sig_db2 then DTClass.dbWriteConflict
  else if strContains s sig_objref then DTClass.objectReference
  else DTClass.command

/-- Scenario kinds, keyed by file extension (source lines 155-162). -/
inductive ScenarioKind where
  | dedupe
  | mass_effect
  | mass_effect_export
  | bulk_backup
deriving DecidableEq, Repr

/-- The `_demand_tool_extension` table. -/
def extOfKind : ScenarioKind → String
  | ScenarioKind.dedupe => ".STDxml"
  | ScenarioKind.mass_effect => ".MExml"
  | ScenarioKind.mass_effect_export => ".DExml"
  | ScenarioKind.bulk_backup => ".BBxml"

/-- The `_scenario_types` reverse lookup. -/
def scenarioTypeOfExt (e : String) : Option ScenarioKind :=
  if e == ".STDxml" then some ScenarioKind.dedupe
  else if e == ".MExml" then some ScenarioKind.mass_effect
  else if e == ".DExml" then some ScenarioKind.mass_effect_export
  else if e == ".BBxml" then some ScenarioKind.bulk_backup
  else none

/-- Python `p[p.rfind('.'):]` from `scenario_type` (source line 256):
the suffix starting at the last dot, or `p[-1:]` (the last character, or
empty for the empty string) when no dot occurs, since `rfind` returns -1
then. -/
def extensionOfPath (p : String) : String :=
  match (p.toList.reverse).span (fun c => !(c == '.')) with
  | (revTail, []) =>
    match revTail with
    | [] => ""
    | c :: _ => String.mk [c]
  | (revTail, _ :: _) => String.mk ('.' :: revTail.reverse)

/-- Python `os.path.basename` on Windows: the part after the last slash
or backslash. -/
def basenameChars (l : List Char) : List Char :=
  (l.reverse.takeWhile (fun c => !(c == '/') && !(c == '\\'))).reverse

/-- Fuel-indexed helper for `removeOccurrences`; the fuel starts at the
length of the list, which suffices because every hit consumes at least
one character of a nonempty pattern. -/
def removeOccAux (pat : List Char) : Nat → List Char → List Char
  | 0, l => l
  | _ + 1, [] => []
  | n + 1, c :: rest =>
    if !pat.isEmpty && isPrefixList pat (c :: rest) then
      removeOccAux pat n ((c :: rest).drop pat.length)
    else
      c :: removeOccAux pat n rest

/-- Python `s.replace(pat, '')` for a nonempty pattern: delete every
occurrence, scanning left to right. -/
def removeOccurrences (pat l : List Char) : List Char :=
  removeOccAux pat l.length l

/-- `scenario_nice_name` (source lines 266-269): the basename of the
scenario path with the kind's extension deleted. -/
def niceNameOf (p : String) (k : ScenarioKind) : String :=
  String.mk (removeOccurrences (extOfKind k).toList (basenameChars p.toList))

/-- Arguments accepted by `DemandToolsCommand.__init__` (the parts the
claims exercise; the callback itself is abstracted to whether one was
supplied). -/
structure DTArgs where
  scenario_path : Option String := none
  input_file : Option String := none
  output_file : Option String := none
  extra_dt_args : Option String := none
  has_post_run_func : Bool := false
  debug : Bool := false
  exceptions_to_retry_on : List DTClass := []
  retry_count : Int := 0
deriving Repr

/-- A construction-time failure: in the source every `__init__`
validation branch raises `DemandToolsCommandException` via
`raise_exception`; the spec calls these ConfigurationError. -/
structure ConfigError where
  message : String
deriving DecidableEq, Repr

/-- A validated command, as it exists after `__init__` returned
normally. -/
structure Runner where
  scenario_path : String
  input_file : Option String
  output_file : Option String
  extra_dt_args : Option String
  has_post_run_func : Bool
  debug : Bool
  exceptions_to_retry_on : List DTClass
  retry_count : Int
  kind : ScenarioKind
  niceName : String
deriving Repr

/-- Python `bool` of the retry list. -/
def pyBoolList (l : List DTClass) : Bool := !l.isEmpty

/-- Python `bool` of the retry count. -/
def pyBoolInt (n : Int) : Bool := !(n == 0)

/-- The validation sequence of `DemandToolsCommand.__init__` (source
lines 170-212), in source order: scenario path required, every retry
entry must inherit from `Exception`, the both-or-neither check of
`retry_count` versus `exceptions_to_retry_on`, and finally the extension
lookup triggered by `scenario_nice_name` when the process name is set. -/
def mkRunner (a : DTArgs) : Except ConfigError Runner :=
  if pyTruthyStr a.scenario_path == false then
    Except.error ⟨"scenario_path is a required argument"⟩
  else if (a.exceptions_to_retry_on.all issubclassOfException) == false then
    Except.error ⟨"All exceptions_to_retry_on must inherit from Exception"⟩
  else if pyBoolList a.exceptions_to_retry_on != pyBoolInt a.retry_count then
    Except.error ⟨"If you set either retry_count or exceptions_to_retry_on you must set the other as well"⟩
  else
    match a.scenario_path with
    | none => Except.error ⟨"scenario_path is a required argument"⟩
    | some p =>
      match scenarioTypeOfExt (extensionOfPath p) with
      | none => Except.error ⟨"Unsupported extension provided"⟩
      | some k =>
        Except.ok
          { scenario_path := p
            input_file := a.input_file
            output_file := a.output_file
            extra_dt_args := a.extra_dt_args
            has_post_run_func := a.has_post_run_func
            debug := a.debug
            exceptions_to_retry_on := a.exceptions_to_retry_on
            retry_count := a.retry_count
            kind := k
            niceName := niceNameOf p k }

/-- Whether an `Except` carries a value (construction succeeded). -/
def exceptIsOk {ε α : Type} : Except ε α → Bool
  | Except.ok _ => true
  | Except.error _ => false

/-- The result of one engine subprocess: its exit code and its captured
standard-error text (`proc.communicate()`; stdout is discarded by the
source and omitted here). -/
structure EngineResult where
  exitCode : Int
  stderr : String

/-- An exception escaping `run`: the class raised and its message. -/
structure DTExc where
  cls : DTClass
  message : String
deriving DecidableEq, Repr

/-- Observable outcome of one `run` call: how many subprocesses were
spawned, the final `_retried_count`, how often the completion callback
ran, the lines emitted to the sink, and normal return versus a raised
exception. -/
structure RunOutcome where
  spawns : Nat
  retries : Nat
  callbackCalls : Nat
  lines : List String
  result : Except DTExc Unit
deriving Repr

/-- The `DTCmd>>>` marker `_print` puts in front of every message. -/
def dtTag : String := "DTCmd>>>"

/-- Rendering of a scenario kind in the sending notice. -/
def kindName : ScenarioKind → String
  | ScenarioKind.dedupe => "dedupe"
  | ScenarioKind.mass_effect => "mass_effect"
  | ScenarioKind.mass_effect_export => "mass_effect_export"
  | ScenarioKind.bulk_backup => "bulk_backup"

/-- `demand_tools_args` (source lines 227-237): executable name, scenario
path, then input, output and extra arguments when truthy. -/
def demand_tools_args (r : Runner) : List String :=
  ["demandtools", r.scenario_path]
    ++ (if pyTruthyStr r.input_file then [r.input_file.getD ""] else [])
    ++ (if pyTruthyStr r.output_file then [r.output_file.getD ""] else [])
    ++ (if pyTruthyStr r.extra_dt_args then [r.extra_dt_args.getD ""] else [])

/-- The message of the exception re-raised by `raise_exception` (source
lines 306-312): the original exception's text followed by the end marker
naming the process. -/
def raiseMessage (nice orig : String) : String :=
  orig ++ "\nEnd Exception from " ++ nice ++ " Process"

/-- The line `raise_exception` prints before raising. -/
def startExcLine (nice : String) : String :=
  "Start Exception from " ++ nice ++ " Process"

/-- Python class name of each modelled class, used in the retry notice. -/
def className : DTClass → String
  | DTClass.dbWriteConflict => "DemandToolsMultiProcessDBWriteConflictException"
  | DTClass.objectReference => "DemandToolsObjectReferenceException"
  | DTClass.command => "DemandToolsCommandException"
  | DTClass.inputFileMissing => "DemandToolsInputFileDoesNotExist"
  | DTClass.otherException => "OtherException"
  | DTClass.nonException => "NonException"

/-- The sending notice of source line 327. -/
def sendingLine (r : Runner) : String :=
  dtTag ++ "Sending " ++ kindName r.kind ++ " scenario \"" ++ r.niceName
    ++ "\" to demandtools"

/-- The completion notice of source line 348. -/
def doneLine (r : Runner) : String :=
  dtTag ++ "demandtools is done processing " ++ r.niceName

/-- The retry notice of source lines 337-342. -/
def retryLine (r : Runner) (cls : DTClass) (n : Nat) : String :=
  dtTag ++ "Encountered " ++ className cls
    ++ " which was specified as a \"retry error\". Retrying (retry "
    ++ toString n ++ "/" ++ toString r.retry_count ++ ") - " ++ r.niceName

/-- The body of `DemandToolsCommand.run` (source lines 314-350).
`stderrOf i` is the captured stderr of the `i`-th subprocess spawned by
this runner, `inputExists` is `os.path.exists(self.input_file)`,
`retried` is `self._retried_count` on entry and `spawned` counts the
subprocesses launched so far across the recursive retries.  The process
priority call of line 322 is an OS side effect with no bearing on the
modelled observables and is not represented. -/
def runFrom (r : Runner) (stderrOf : Nat → String) (inputExists : Bool)
    (retried spawned : Nat) : RunOutcome :=
  if pyTruthyStr r.input_file = true ∧ inputExists = false then
    { spawns := spawned, retries := retried, callbackCalls := 0,
      lines := [startExcLine r.niceName],
      result := Except.error ⟨DTClass.inputFileMissing,
        raiseMessage r.niceName (r.input_file.getD "" ++ " does not exist")⟩ }
  else
    let dbg := if r.debug then [dtTag ++ String.intercalate " " (demand_tools_args r)] else []
    let stderr := stderrOf spawned
    if _hs : stderr = "" then
      { spawns := spawned + 1, retries := retried,
        callbackCalls := if r.has_post_run_func then 1 else 0,
        lines := sendingLine r :: dbg ++ [doneLine r],
        result := Except.ok () }
    else
      let cls := DemandToolsExceptionFactory stderr
      if _hr : cls ∈ r.exceptions_to_retry_on ∧ (retried : Int) < r.retry_count then
        let rest := runFrom r stderrOf inputExists (retried + 1) (spawned + 1)
        { rest with
            lines := sendingLine r :: dbg ++ retryLine r cls (retried + 1) :: rest.lines }
      else
        { spawns := spawned + 1, retries := retried, callbackCalls := 0,
          lines := sendingLine r :: dbg ++ [startExcLine r.niceName],
          result := Except.error ⟨cls, raiseMessage r.niceName stderr⟩ }
termination_by (r.retry_count - retried).toNat
decreasing_by
  obtain ⟨-, h⟩ := _hr
  omega

/-- A top-level `run` call: `_retried_count` is 0 (set in `__init__`) and
no subprocess has been spawned yet.  Only the stderr of each engine
result is ever consulted; the exit code is carried so that theorems can
state precisely that it is ignored. -/
def DemandToolsCommand.run (r : Runner) (engine : Nat → EngineResult)
    (inputExists : Bool) : RunOutcome :=
  runFrom r (fun i => (engine i).stderr) inputExists 0 0

/-- State of a `LogWatcher`: its constructor arguments and the
cancellation `Event` (source lines 18-24). -/
structure LogWatcherState where
  organization_id : Option String
  max_line_length : Nat
  stop_event : Bool
deriving DecidableEq, Repr

/-- `LogWatcher.stop` (source lines 26-29): print the stop notice, set
the cancellation event.  Returns the new state and the printed lines. -/
def LogWatcher.stop (w : LogWatcherState) : LogWatcherState × List String :=
  ({ w with stop_event := true }, ["DemandTools LogWatcher stopped."])

/-- The state-transforming part of `LogWatcher.stop`. -/
def LogWatcher.stopState (w : LogWatcherState) : LogWatcherState :=
  (LogWatcher.stop w).1

/-- The `stopped` property (source lines 43-45). -/
def LogWatcher.stoppedProp (w : LogWatcherState) : Bool :=
  w.stop_event

/-- Blank-line test of source line 84: the line with newlines removed
(`line.replace("\n","")`) compared against the empty string. -/
def removeNewlines (l : List Char) : List Char :=
  l.filter (fun c => !(c == '\n'))

/-- Timestamp trimming of source lines 86-87: when a comma occurs, keep
only what follows the first comma (`line[line.index(',')+1:]`). -/
def trimTimestampField (l : List Char) : List Char :=
  if ',' ∈ l then (l.dropWhile (fun c => !(c == ','))).tail else l

/-- Model of `re.sub(",+", "|", line)` (source line 89): each maximal run
of commas becomes one pipe; scanning left to right, a comma followed by
another comma emits nothing and the last comma of a run emits the pipe. -/
def reSubCommas : List Char → List Char
  | [] => []
  | ',' :: rest =>
    match rest with
    | ',' :: _ => reSubCommas rest
    | _ => '|' :: reSubCommas rest
  | c :: rest => c :: reSubCommas rest

/-- Characters deleted by `re.sub('(\n|")+', '', line)` (source line 91). -/
def isNlOrQuote (c : Char) : Bool := c == '\n' || c == '"'

/-- Model of `re.sub('(\n|")+', '', line)`: replacing every maximal run
of newlines and double quotes by the empty string deletes exactly those
characters. -/
def reSubNlQuote : List Char → List Char
  | [] => []
  | c :: rest =>
    if isNlOrQuote c then reSubNlQuote rest else c :: reSubNlQuote rest

/-- The whitespace set of Python `str.strip()` with no arguments. -/
def pyIsSpace (c : Char) : Bool :=
  c == ' ' || c == '\t' || c == '\n' || c == '\r' || c == '\x0b' || c == '\x0c'

/-- Python `line.strip()` (source line 92). -/
def pyStrip (l : List Char) : List Char :=
  ((l.dropWhile pyIsSpace).reverse.dropWhile pyIsSpace).reverse

/-- One iteration of the tailing loop's line handling (source lines
84-94): `none` when the line is blank (nothing is forwarded), otherwise
the line handed to `_print`, truncated to `max_line_length` and prefixed
with `DTLog>>> `. -/
def LogWatcher.processLine (maxLineLength : Nat) (line : List Char) :
    Option (List Char) :=
  if removeNewlines line = [] then none
  else
    let l1 := trimTimestampField line
    let l2 := reSubCommas l1
    let l3 := reSubNlQuote l2
    let l4 := pyStrip l3
    some ("DTLog>>> ".toList ++ l4.take maxLineLength)

/-- Spec-side reading of the timestamp strip: split the line at the first
comma; when one exists the leading comma-delimited field and its comma
are dropped, otherwise the line is unchanged. -/
def specStripTimestamp (l : List Char) : List Char :=
  match l.span (fun c => !(c == ',')) with
  | (_, []) => l
  | (_, _ :: rest) => rest

/-- Spec-side reading of the comma collapse, part 1: the segments of the
line delimited by maximal runs of consecutive commas. -/
def specSplitCommaRuns : List Char → List (List Char)
  | [] => [[]]
  | ',' :: rest =>
    match rest, specSplitCommaRuns rest with
    | ',' :: _, ss => ss
    | _, ss => [] :: ss
  | c :: rest =>
    match specSplitCommaRuns rest with
    | [] => [[c]]
    | s :: ss => (c :: s) :: ss

/-- Spec-side reading of the comma collapse, part 2: join the segments
with a single pipe character between consecutive segments. -/
def joinWithPipe : List (List Char) → List Char
  | [] => []
  | [s] => s
  | s :: ss => s ++ '|' :: joinWithPipe ss

/-- The claim's normalization pipeline, phrased from the spec's words:
strip the leading comma-delimited field, replace every maximal comma run
by one pipe, remove all newline and double-quote characters, trim
surrounding whitespace. -/
def specNormalize (line : List Char) : List Char :=
  pyStrip ((joinWithPipe (specSplitCommaRuns (specStripTimestamp line))).filter
    (fun c => !(isNlOrQuote c)))

/-- A runner used to instantiate the universally quantified run theorems:
a dedupe scenario with a completion callback and a retry budget of 2 on
the DB write conflict class. -/
def demoRunner : Runner :=
  { scenario_path := "accounts.STDxml"
    input_file := none
    output_file := none
    extra_dt_args := none
    has_post_run_func := true
    debug := false
    exceptions_to_retry_on := [DTClass.dbWriteConflict]
    retry_count := 2
    kind := ScenarioKind.dedupe
    niceName := "accounts" }

/-- A runner with no retry policy, used to instantiate failure cases. -/
def demoRunnerNoRetry : Runner :=
  { scenario_path := "accounts.STDxml"
    input_file := none
    output_file := none
    extra_dt_args := none
    has_post_run_func := true
    debug := false
    exceptions_to_retry_on := []
    retry_count := 0
    kind := ScenarioKind.dedupe
    niceName := "accounts" }

/-- A runner configured with an input file, for the pre-flight check. -/
def demoRunnerWithInput : Runner :=
  { demoRunnerNoRetry with input_file := some "contacts.csv" }

/-- A stderr text matching the DB write conflict signature. -/
def dbConflictText : String :=
  "The process cannot access the file X because it is being used by another process"

/-- An engine that fails with the DB conflict text on the first two
attempts and succeeds (empty stderr) afterwards. -/
def engineFailTwice : Nat → EngineResult := fun i =>
  if i < 2 then { exitCode := 1, stderr := dbConflictText }
  else { exitCode := 0, stderr := "" }

/-- An engine that always fails with the DB conflict text. -/
def engineAlwaysFail : Nat → EngineResult := fun _ =>
  { exitCode := 1, stderr := dbConflictText }

/-- An engine that always succeeds, reporting exit code 5. -/
def engineOkCode5 : Nat → EngineResult := fun _ =>
  { exitCode := 5, stderr := "" }

/-- An engine that always succeeds, reporting exit code 7. -/
def engineOkCode7 : Nat → EngineResult := fun _ =>
  { exitCode := 7, stderr := "" }

/-- An engine that exits with code 0 yet writes to stderr. -/
def engineBoomCode0 : Nat → EngineResult := fun _ =>
  { exitCode := 0, stderr := "boom" }

/-- C3 counterexample text: it contains the claim's two quoted fragments
but not the longer sentences the source actually requires. -/
def c3Text : String :=
  "error: being used by another process; the process cannot access the file"

/- ------------------------------------------------------------------ -/
/- Theorems.                                                           -/
/- ------------------------------------------------------------------ -/

/-- C3 (counterexample): a diagnostic text containing the claim's quoted
fragment "being used by another process" together with a "process cannot
access the file" fragment is NOT classified as the DB access collision,
because the source requires the longer sentence "because it is being used
by another process" and the capitalised "The process cannot access the
file". -/
theorem c3_counterexample :
    strContains c3Text "being used by another process" = true ∧
    strContains c3Text "process cannot access the file" = true ∧
    DemandToolsExceptionFactory c3Text ≠ DTClass.dbWriteConflict := by
  refine ⟨by decide, by decide, by decide⟩

/-- C3 (amended): for every diagnostic text containing both full source
signature sentences "because it is being used by another process" and
"The process cannot access the file", the classifier returns the DB
access collision class, regardless of the order of the fragments and of
any surrounding content (including content matching other categories'
signatures, since this check is first). -/
theorem c3_db_collision_classified (s : String)
    (h1 : strContains s sig_db1 = true)
    (h2 : strContains s sig_db2 = true) :
    DemandToolsExceptionFactory s = DTClass.dbWriteConflict := by
  unfold DemandToolsExceptionFactory
  rw [h1, h2]
  rfl

/-- C3 witness: a concrete text containing both full signatures and the
object-reference signature is classified as the DB access collision. -/
theorem c3_witness :
    strContains "The process cannot access the file X because it is being used by another process. Object reference not set to an instance of an object" sig_db1 = true ∧
    strContains "The process cannot access the file X because it is being used by another process. Object reference not set to an instance of an object" sig_db2 = true ∧
    DemandToolsExceptionFactory "The process cannot access the file X because it is being used by another process. Object reference not set to an instance of an object" = DTClass.dbWriteConflict :=
  ⟨by decide, by decide,
    c3_db_collision_classified
      "The process cannot access the file X because it is being used by another process. Object reference not set to an instance of an object"
      (by decide) (by decide)⟩

/-- C4: the classifier is a total function into the class enumeration,
and for every diagnostic text containing neither the full DB access
collision signature pair nor the object-reference signature it returns
the generic command failure class. -/
theorem c4_generic_fallback (s : String)
    (h1 : ¬(strContains s sig_db1 = true ∧ strContains s sig_db2 = true))
    (h2 : strContains s sig_objref = false) :
    DemandToolsExceptionFactory s = DTClass.command := by
  unfold DemandToolsExceptionFactory
  have hb : (strContains s sig_db1 && strContains s sig_db2) = false := by
    cases hx : strContains s sig_db1 with
    | false => simp
    | true =>
      cases hy : strContains s sig_db2 with
      | false => simp
      | true => exact absurd ⟨hx, hy⟩ h1
  rw [hb, h2]
  rfl

/-- C4 witness: a concrete unclassifiable text is mapped to the generic
command failure class. -/
theorem c4_witness :
    ¬(strContains "unknown failure" sig_db1 = true ∧ strContains "unknown failure" sig_db2 = true) ∧
    strContains "unknown failure" sig_objref = false ∧
    DemandToolsExceptionFactory "unknown failure" = DTClass.command :=
  ⟨by decide, by decide, c4_generic_fallback "unknown failure" (by decide) (by decide)⟩

/-- C5: constructing a command whose retry-eligible list is nonempty
while the retry count is zero, or whose retry count is positive while the
list is empty, fails with a configuration error.  Construction is pure in
this model: no subprocess exists before `run`, so a failed construction
spawns nothing. -/
theorem c5_retry_xor_config_error (a : DTArgs)
    (h : (a.exceptions_to_retry_on ≠ [] ∧ a.retry_count = 0) ∨
         (a.exceptions_to_retry_on = [] ∧ 0 < a.retry_count)) :
    ∃ e, mkRunner a = Except.error e := by
  cases h1 : pyTruthyStr a.scenario_path with
  | false => exact ⟨⟨"scenario_path is a required argument"⟩, by simp [mkRunner, h1]⟩
  | true =>
    cases h2 : a.exceptions_to_retry_on.all issubclassOfException with
    | false => exact ⟨⟨"All exceptions_to_retry_on must inherit from Exception"⟩, by simp [mkRunner, h1, h2]⟩
    | true =>
      have h3 : (pyBoolList a.exceptions_to_retry_on != pyBoolInt a.retry_count) = true := by
        rcases h with ⟨hne, hz⟩ | ⟨he, hp⟩
        · have hl : pyBoolList a.exceptions_to_retry_on = true := by
            simp [pyBoolList, List.isEmpty_iff, hne]
          have hr : pyBoolInt a.retry_count = false := by
            simp [pyBoolInt, hz]
          simp [hl, hr]
        · have hl : pyBoolList a.exceptions_to_retry_on = false := by
            simp [pyBoolList, he]
          have hr : pyBoolInt a.retry_count = true := by
            simp [pyBoolInt]
            omega
          simp [hl, hr]
      exact ⟨⟨"If you set either retry_count or exceptions_to_retry_on you must set the other as well"⟩,
        by simp [mkRunner, h1, h2, h3]⟩

/-- C5 witness: a nonempty retry list with a zero retry count is rejected
at construction. -/
theorem c5_witness :
    (([DTClass.dbWriteConflict] : List DTClass) ≠ [] ∧ (0 : Int) = 0) ∧
    ∃ e, mkRunner { scenario_path := some "dup.STDxml",
                    exceptions_to_retry_on := [DTClass.dbWriteConflict],
                    retry_count := 0 } = Except.error e :=
  ⟨⟨by decide, rfl⟩,
    c5_retry_xor_config_error
      { scenario_path := some "dup.STDxml",
        exceptions_to_retry_on := [DTClass.dbWriteConflict],
        retry_count := 0 }
      (Or.inl ⟨by decide, rfl⟩)⟩

/-- C6 (counterexample): a retry-eligible entry outside the closed
FailureCategory set — an `Exception` subclass such as `ValueError`,
modelled by `otherException` — does NOT make construction fail: the
source only checks `issubclass(e, Exception)`. -/
theorem c6_counterexample :
    isFailureCategory DTClass.otherException = false ∧
    exceptIsOk (mkRunner { scenario_path := some "dup.STDxml",
                           exceptions_to_retry_on := [DTClass.otherException],
                           retry_count := 1 }) = true := by
  refine ⟨by decide, by decide⟩

/-- C6 (amended): construction fails with a configuration error exactly
when a retry-eligible entry is not a subclass of `Exception`; entries
that are `Exception` subclasses are accepted even when they lie outside
the closed FailureCategory set. -/
theorem c6_non_exception_rejected (a : DTArgs) (c : DTClass)
    (hc : c ∈ a.exceptions_to_retry_on)
    (hbad : issubclassOfException c = false) :
    ∃ e, mkRunner a = Except.error e := by
  cases h1 : pyTruthyStr a.scenario_path with
  | false => exact ⟨⟨"scenario_path is a required argument"⟩, by simp [mkRunner, h1]⟩
  | true =>
    have h2 : (a.exceptions_to_retry_on.all issubclassOfException) = false := by
      cases h : a.exceptions_to_retry_on.all issubclassOfException with
      | false => rfl
      | true => exact absurd ((List.all_eq_true.mp h) c hc) (by simp [hbad])
    exact ⟨⟨"All exceptions_to_retry_on must inherit from Exception"⟩, by simp [mkRunner, h1, h2]⟩

/-- C6 witness: a non-`Exception` entry is rejected at construction. -/
theorem c6_witness :
    DTClass.nonException ∈ [DTClass.nonException] ∧
    issubclassOfException DTClass.nonException = false ∧
    ∃ e, mkRunner { scenario_path := some "dup.STDxml",
                    exceptions_to_retry_on := [DTClass.nonException],
                    retry_count := 1 } = Except.error e :=
  ⟨by decide, by decide,
    c6_non_exception_rejected
      { scenario_path := some "dup.STDxml",
        exceptions_to_retry_on := [DTClass.nonException],
        retry_count := 1 }
      DTClass.nonException (by decide) (by decide)⟩


/-- Unfolding lemma for the pre-flight input check branch of `runFrom`. -/
theorem runFrom_input_step (r : Runner) (f : Nat → String) (ie : Bool) (retried spawned : Nat)
    (h : pyTruthyStr r.input_file = true ∧ ie = false) :
    runFrom r f ie retried spawned =
      { spawns := spawned, retries := retried, callbackCalls := 0,
        lines := [startExcLine r.niceName],
        result := Except.error ⟨DTClass.inputFileMissing,
          raiseMessage r.niceName (r.input_file.getD "" ++ " does not exist")⟩ } := by
  rw [runFrom]
  rw [if_pos h]

/-- Unfolding lemma for the success branch of `runFrom`. -/
theorem runFrom_ok_step (r : Runner) (f : Nat → String) (ie : Bool) (retried spawned : Nat)
    (hni : ¬(pyTruthyStr r.input_file = true ∧ ie = false))
    (hs : f spawned = "") :
    runFrom r f ie retried spawned =
      { spawns := spawned + 1, retries := retried,
        callbackCalls := if r.has_post_run_func then 1 else 0,
        lines := (sendingLine r ::
          (if r.debug then [dtTag ++ String.intercalate " " (demand_tools_args r)] else []))
          ++ [doneLine r],
        result := Except.ok () } := by
  rw [runFrom]
  rw [if_neg hni]
  simp [hs]

/-- Unfolding lemma for the retry branch of `runFrom`. -/
theorem runFrom_retry_step (r : Runner) (f : Nat → String) (ie : Bool) (retried spawned : Nat)
    (hni : ¬(pyTruthyStr r.input_file = true ∧ ie = false))
    (hs : ¬(f spawned = ""))
    (hr : DemandToolsExceptionFactory (f spawned) ∈ r.exceptions_to_retry_on ∧
      (retried : Int) < r.retry_count) :
    runFrom r f ie retried spawned =
      { runFrom r f ie (retried + 1) (spawned + 1) with
        lines := (sendingLine r ::
          (if r.debug then [dtTag ++ String.intercalate " " (demand_tools_args r)] else []))
          ++ retryLine r (DemandToolsExceptionFactory (f spawned)) (retried + 1)
            :: (runFrom r f ie (retried + 1) (spawned + 1)).lines } := by
  rw [runFrom]
  rw [if_neg hni]
  simp only []
  rw [dif_neg hs]
  rw [dif_pos hr]

/-- Unfolding lemma for the raising branch of `runFrom`. -/
theorem runFrom_raise_step (r : Runner) (f : Nat → String) (ie : Bool) (retried spawned : Nat)
    (hni : ¬(pyTruthyStr r.input_file = true ∧ ie = false))
    (hs : ¬(f spawned = ""))
    (hnr : ¬(DemandToolsExceptionFactory (f spawned) ∈ r.exceptions_to_retry_on ∧
      (retried : Int) < r.retry_count)) :
    runFrom r f ie retried spawned =
      { spawns := spawned + 1, retries := retried, callbackCalls := 0,
        lines := (sendingLine r ::
          (if r.debug then [dtTag ++ String.intercalate " " (demand_tools_args r)] else []))
          ++ [startExcLine r.niceName],
        result := Except.error ⟨DemandToolsExceptionFactory (f spawned),
          raiseMessage r.niceName (f spawned)⟩ } := by
  rw [runFrom]
  rw [if_neg hni]
  simp only []
  rw [dif_neg hs]
  rw [dif_neg hnr]

/-- Core retry induction, success side: when the first `k` attempts after
`spawned` fail with retry-eligible classes, the retry budget admits `k`
more retries and attempt `spawned + k` has empty stderr, `runFrom`
returns normally having consumed exactly `k` retries and `k + 1` spawns,
calling the callback once when one is configured. -/
theorem runFrom_ok_of (r : Runner) (f : Nat → String) (ie : Bool)
    (hin : pyTruthyStr r.input_file = true → ie = true) :
    ∀ (k retried spawned : Nat),
      ((retried : Int) + k ≤ r.retry_count) →
      (∀ j, j < k → f (spawned + j) ≠ "" ∧
        DemandToolsExceptionFactory (f (spawned + j)) ∈ r.exceptions_to_retry_on) →
      f (spawned + k) = "" →
      (runFrom r f ie retried spawned).result = Except.ok () ∧
      (runFrom r f ie retried spawned).retries = retried + k ∧
      (runFrom r f ie retried spawned).spawns = spawned + k + 1 ∧
      (runFrom r f ie retried spawned).callbackCalls =
        (if r.has_post_run_func then 1 else 0) := by
  have hni : ¬(pyTruthyStr r.input_file = true ∧ ie = false) := by
    rintro ⟨hp, hfalse⟩
    rw [hin hp] at hfalse
    cases hfalse
  intro k
  induction k with
  | zero =>
    intro retried spawned _hb _hf hs
    rw [Nat.add_zero] at hs
    rw [runFrom_ok_step r f ie retried spawned hni hs]
    exact ⟨rfl, rfl, rfl, rfl⟩
  | succ k ih =>
    intro retried spawned hb hf hs
    have h0 := hf 0 (Nat.succ_pos k)
    rw [Nat.add_zero] at h0
    have hr : DemandToolsExceptionFactory (f spawned) ∈ r.exceptions_to_retry_on ∧
        (retried : Int) < r.retry_count := ⟨h0.2, by push_cast at hb; omega⟩
    rw [runFrom_retry_step r f ie retried spawned hni h0.1 hr]
    have hb' : (((retried + 1 : Nat)) : Int) + k ≤ r.retry_count := by
      push_cast at hb ⊢
      omega
    have hf' : ∀ j, j < k → f (spawned + 1 + j) ≠ "" ∧
        DemandToolsExceptionFactory (f (spawned + 1 + j)) ∈ r.exceptions_to_retry_on := by
      intro j hj
      have h := hf (j + 1) (by omega)
      have heq : spawned + (j + 1) = spawned + 1 + j := by omega
      rwa [heq] at h
    have hs' : f (spawned + 1 + k) = "" := by
      have heq : spawned + (k + 1) = spawned + 1 + k := by omega
      rwa [heq] at hs
    obtain ⟨r1, r2, r3, r4⟩ := ih (retried + 1) (spawned + 1) hb' hf' hs'
    refine ⟨r1, ?_, ?_, r4⟩
    · show (runFrom r f ie (retried + 1) (spawned + 1)).retries = retried + (k + 1)
      omega
    · show (runFrom r f ie (retried + 1) (spawned + 1)).spawns = spawned + (k + 1) + 1
      omega

/-- Core retry induction, failure side: when every attempt from `spawned`
through `spawned + k` fails with a retry-eligible class and the remaining
budget is exactly `k`, `runFrom` raises the classified exception of the
last attempt after `k` further retries and `k + 1` further spawns, never
calling the callback. -/
theorem runFrom_raise_of (r : Runner) (f : Nat → String) (ie : Bool)
    (hin : pyTruthyStr r.input_file = true → ie = true) :
    ∀ (k retried spawned : Nat),
      ((retried : Int) + k = r.retry_count) →
      (∀ j, j ≤ k → f (spawned + j) ≠ "" ∧
        DemandToolsExceptionFactory (f (spawned + j)) ∈ r.exceptions_to_retry_on) →
      (runFrom r f ie retried spawned).result =
        Except.error ⟨DemandToolsExceptionFactory (f (spawned + k)),
          raiseMessage r.niceName (f (spawned + k))⟩ ∧
      (runFrom r f ie retried spawned).retries = retried + k ∧
      (runFrom r f ie retried spawned).spawns = spawned + k + 1 ∧
      (runFrom r f ie retried spawned).callbackCalls = 0 := by
  have hni : ¬(pyTruthyStr r.input_file = true ∧ ie = false) := by
    rintro ⟨hp, hfalse⟩
    rw [hin hp] at hfalse
    cases hfalse
  intro k
  induction k with
  | zero =>
    intro retried spawned hb hf
    have h0 := hf 0 (Nat.le_refl 0)
    rw [Nat.add_zero] at h0
    have hnr : ¬(DemandToolsExceptionFactory (f spawned) ∈ r.exceptions_to_retry_on ∧
        (retried : Int) < r.retry_count) := by
      rintro ⟨-, hlt⟩
      push_cast at hb
      omega
    rw [runFrom_raise_step r f ie retried spawned hni h0.1 hnr]
    refine ⟨by simp, rfl, rfl, rfl⟩
  | succ k ih =>
    intro retried spawned hb hf
    have h0 := hf 0 (Nat.zero_le _)
    rw [Nat.add_zero] at h0
    have hr : DemandToolsExceptionFactory (f spawned) ∈ r.exceptions_to_retry_on ∧
        (retried : Int) < r.retry_count := ⟨h0.2, by push_cast at hb; omega⟩
    rw [runFrom_retry_step r f ie retried spawned hni h0.1 hr]
    have hb' : (((retried + 1 : Nat)) : Int) + k = r.retry_count := by
      push_cast at hb ⊢
      omega
    have hf' : ∀ j, j ≤ k → f (spawned + 1 + j) ≠ "" ∧
        DemandToolsExceptionFactory (f (spawned + 1 + j)) ∈ r.exceptions_to_retry_on := by
      intro j hj
      have h := hf (j + 1) (by omega)
      have heq : spawned + (j + 1) = spawned + 1 + j := by omega
      rwa [heq] at h
    obtain ⟨r1, r2, r3, r4⟩ := ih (retried + 1) (spawned + 1) hb' hf'
    have hidx : spawned + 1 + k = spawned + (k + 1) := by omega
    refine ⟨?_, ?_, ?_, r4⟩
    · show (runFrom r f ie (retried + 1) (spawned + 1)).result = _
      rw [r1, hidx]
    · show (runFrom r f ie (retried + 1) (spawned + 1)).retries = retried + (k + 1)
      omega
    · show (runFrom r f ie (retried + 1) (spawned + 1)).spawns = spawned + (k + 1) + 1
      omega


/-- A list is a leading segment of itself followed by anything. -/
theorem isPrefixList_append_self : ∀ (a b : List Char), isPrefixList a (a ++ b) = true
  | [], _ => rfl
  | c :: a, b => by
    simp [isPrefixList, isPrefixList_append_self a b]

/-- A list occurs inside itself followed by anything. -/
theorem containsList_append_self (a b : List Char) : containsList a (a ++ b) = true := by
  cases a with
  | nil =>
    cases b with
    | nil => rfl
    | cons c rest => simp [containsList, isPrefixList]
  | cons c a2 =>
    have h : isPrefixList (c :: a2) (c :: (a2 ++ b)) = true := by
      simpa using isPrefixList_append_self (c :: a2) b
    simp [containsList, h]

/-- The annotated message raised for a classified failure contains the
original diagnostic text. -/
theorem strContains_raiseMessage (nice orig : String) :
    strContains (raiseMessage nice orig) orig = true := by
  unfold strContains raiseMessage
  have h : (orig ++ "\nEnd Exception from " ++ nice ++ " Process").toList =
      orig.toList ++ ("\nEnd Exception from ".toList ++ (nice.toList ++ " Process".toList)) := by
    simp [String.toList]
  rw [h]
  exact containsList_append_self _ _

/-- C1: with retry budget `N` covering class `C`, an engine failing with a
stderr classified as `C` on each of the first `N` attempts and succeeding
(empty stderr) on attempt `N + 1`, `run` performs exactly `N` retries,
returns normally, spawns `N + 1` subprocesses, and invokes the completion
callback exactly once — not once per attempt. -/
theorem c1_retry_then_success (N : Nat) (C : DTClass) (r : Runner)
    (engine : Nat → EngineResult) (ie : Bool)
    (hbudget : r.retry_count = (N : Int))
    (hC : C ∈ r.exceptions_to_retry_on)
    (hcb : r.has_post_run_func = true)
    (hin : pyTruthyStr r.input_file = true → ie = true)
    (hfail : ∀ i, i < N → (engine i).stderr ≠ "" ∧
      DemandToolsExceptionFactory (engine i).stderr = C)
    (hsucc : (engine N).stderr = "") :
    (DemandToolsCommand.run r engine ie).retries = N ∧
    (DemandToolsCommand.run r engine ie).result = Except.ok () ∧
    (DemandToolsCommand.run r engine ie).callbackCalls = 1 ∧
    (DemandToolsCommand.run r engine ie).spawns = N + 1 := by
  unfold DemandToolsCommand.run
  obtain ⟨r1, r2, r3, r4⟩ := runFrom_ok_of r (fun i => (engine i).stderr) ie hin N 0 0
    (by rw [hbudget]; push_cast; omega)
    (by
      intro j hj
      have h := hfail j hj
      refine ⟨by simpa using h.1, ?_⟩
      have hcls : DemandToolsExceptionFactory ((engine (0 + j)).stderr) = C := by
        simpa using h.2
      rw [hcls]
      exact hC)
    (by simpa using hsucc)
  refine ⟨by simpa using r2, r1, ?_, by simpa using r3⟩
  rw [r4, hcb]
  rfl

/-- C1 witness: budget 2 on the DB conflict class, two DB-conflict
failures then success — two retries, normal completion, one callback
call, three spawns. -/
theorem c1_witness :
    (DemandToolsCommand.run demoRunner engineFailTwice true).retries = 2 ∧
    (DemandToolsCommand.run demoRunner engineFailTwice true).result = Except.ok () ∧
    (DemandToolsCommand.run demoRunner engineFailTwice true).callbackCalls = 1 ∧
    (DemandToolsCommand.run demoRunner engineFailTwice true).spawns = 2 + 1 :=
  c1_retry_then_success 2 DTClass.dbWriteConflict demoRunner engineFailTwice true
    (by decide) (by decide) (by decide) (by decide)
    (by decide)
    (by decide)

/-- C2: with retry budget `N` covering class `C` and an engine whose
every attempt fails with a stderr classified as `C`, `run` raises the
classified exception after exactly `N` retries, that is `N + 1` total
subprocess attempts; the raised exception carries class `C` and its
message contains the last attempt's original diagnostic text. -/
theorem c2_exhausted_raises (N : Nat) (C : DTClass) (r : Runner)
    (engine : Nat → EngineResult) (ie : Bool)
    (hbudget : r.retry_count = (N : Int))
    (hC : C ∈ r.exceptions_to_retry_on)
    (hin : pyTruthyStr r.input_file = true → ie = true)
    (hfail : ∀ i, (engine i).stderr ≠ "" ∧
      DemandToolsExceptionFactory (engine i).stderr = C) :
    (DemandToolsCommand.run r engine ie).retries = N ∧
    (DemandToolsCommand.run r engine ie).spawns = N + 1 ∧
    (DemandToolsCommand.run r engine ie).callbackCalls = 0 ∧
    (DemandToolsCommand.run r engine ie).result =
      Except.error ⟨C, raiseMessage r.niceName (engine N).stderr⟩ ∧
    strContains (raiseMessage r.niceName (engine N).stderr) (engine N).stderr = true := by
  unfold DemandToolsCommand.run
  obtain ⟨r1, r2, r3, r4⟩ := runFrom_raise_of r (fun i => (engine i).stderr) ie hin N 0 0
    (by rw [hbudget]; push_cast; omega)
    (by
      intro j _hj
      have h := hfail j
      refine ⟨by simpa using h.1, ?_⟩
      have hcls : DemandToolsExceptionFactory ((engine (0 + j)).stderr) = C := by
        simpa using h.2
      rw [hcls]
      exact hC)
  refine ⟨by simpa using r2, by simpa using r3, r4, ?_, ?_⟩
  · have hcls : DemandToolsExceptionFactory ((engine (0 + N)).stderr) = C := by
      simpa using (hfail N).2
    rw [r1, hcls]
    simp
  · exact strContains_raiseMessage r.niceName (engine N).stderr

/-- C2 witness: budget 2, always failing with the DB conflict text — two
retries, three spawns, the DB conflict exception raised with the original
text inside its message. -/
theorem c2_witness :
    (DemandToolsCommand.run demoRunner engineAlwaysFail true).retries = 2 ∧
    (DemandToolsCommand.run demoRunner engineAlwaysFail true).spawns = 2 + 1 ∧
    (DemandToolsCommand.run demoRunner engineAlwaysFail true).callbackCalls = 0 ∧
    (DemandToolsCommand.run demoRunner engineAlwaysFail true).result =
      Except.error ⟨DTClass.dbWriteConflict,
        raiseMessage demoRunner.niceName (engineAlwaysFail 2).stderr⟩ ∧
    strContains (raiseMessage demoRunner.niceName (engineAlwaysFail 2).stderr)
      (engineAlwaysFail 2).stderr = true := by
  have hne : dbConflictText ≠ "" := by decide
  have hcl : DemandToolsExceptionFactory dbConflictText = DTClass.dbWriteConflict := by decide
  exact c2_exhausted_raises 2 DTClass.dbWriteConflict demoRunner engineAlwaysFail true
    (by decide) (by decide) (by decide) (fun _ => ⟨hne, hcl⟩)

/-- C7: when an input file is configured and it does not exist, `run`
raises the input-file-missing exception during the pre-flight check: no
subprocess is spawned on that attempt, no retry happens and the callback
never runs. -/
theorem c7_input_missing_no_spawn (r : Runner) (engine : Nat → EngineResult)
    (hconf : pyTruthyStr r.input_file = true) :
    (DemandToolsCommand.run r engine false).spawns = 0 ∧
    (DemandToolsCommand.run r engine false).retries = 0 ∧
    (DemandToolsCommand.run r engine false).callbackCalls = 0 ∧
    (DemandToolsCommand.run r engine false).result =
      Except.error ⟨DTClass.inputFileMissing,
        raiseMessage r.niceName (r.input_file.getD "" ++ " does not exist")⟩ := by
  unfold DemandToolsCommand.run
  rw [runFrom_input_step r (fun i => (engine i).stderr) false 0 0 ⟨hconf, rfl⟩]
  exact ⟨rfl, rfl, rfl, rfl⟩

/-- C7 witness: a runner with a configured input file on a filesystem
where it is missing spawns nothing and raises the missing-input
exception. -/
theorem c7_witness :
    pyTruthyStr demoRunnerWithInput.input_file = true ∧
    (DemandToolsCommand.run demoRunnerWithInput engineOkCode5 false).spawns = 0 ∧
    (DemandToolsCommand.run demoRunnerWithInput engineOkCode5 false).retries = 0 ∧
    (DemandToolsCommand.run demoRunnerWithInput engineOkCode5 false).callbackCalls = 0 ∧
    (DemandToolsCommand.run demoRunnerWithInput engineOkCode5 false).result =
      Except.error ⟨DTClass.inputFileMissing,
        raiseMessage demoRunnerWithInput.niceName
          (demoRunnerWithInput.input_file.getD "" ++ " does not exist")⟩ :=
  ⟨by decide,
    c7_input_missing_no_spawn demoRunnerWithInput engineOkCode5 (by decide)⟩

/-- C9: success of an attempt is judged solely by emptiness of the
captured stderr.  First conjunct: two engines agreeing on stderr give
byte-for-byte identical run outcomes, whatever their exit codes — the
exit code is never examined.  Second: an empty stderr on the first
attempt yields normal completion, the completion line and the callback,
regardless of exit code.  Third: a non-empty stderr is treated as a
failure even when the child exited with code 0. -/
theorem c9_stderr_decides (r : Runner) (e1 e2 : Nat → EngineResult) :
    ((∀ i, (e1 i).stderr = (e2 i).stderr) →
      ∀ ie, DemandToolsCommand.run r e1 ie = DemandToolsCommand.run r e2 ie) ∧
    (∀ ie, (pyTruthyStr r.input_file = true → ie = true) → (e1 0).stderr = "" →
      (DemandToolsCommand.run r e1 ie).result = Except.ok () ∧
      (DemandToolsCommand.run r e1 ie).callbackCalls =
        (if r.has_post_run_func then 1 else 0) ∧
      doneLine r ∈ (DemandToolsCommand.run r e1 ie).lines) ∧
    (∀ ie, (pyTruthyStr r.input_file = true → ie = true) → (e1 0).stderr ≠ "" →
      (e1 0).exitCode = 0 → r.exceptions_to_retry_on = [] →
      ∃ exc, (DemandToolsCommand.run r e1 ie).result = Except.error exc) := by
  refine ⟨?_, ?_, ?_⟩
  · intro hagree ie
    unfold DemandToolsCommand.run
    have hfun : (fun i => (e1 i).stderr) = (fun i => (e2 i).stderr) := funext hagree
    rw [hfun]
  · intro ie hin hs
    have hni : ¬(pyTruthyStr r.input_file = true ∧ ie = false) := by
      rintro ⟨hp, hfalse⟩
      rw [hin hp] at hfalse
      cases hfalse
    unfold DemandToolsCommand.run
    rw [runFrom_ok_step r (fun i => (e1 i).stderr) ie 0 0 hni hs]
    refine ⟨rfl, rfl, ?_⟩
    simp
  · intro ie hin hs _hcode helig
    have hni : ¬(pyTruthyStr r.input_file = true ∧ ie = false) := by
      rintro ⟨hp, hfalse⟩
      rw [hin hp] at hfalse
      cases hfalse
    have hnr : ¬(DemandToolsExceptionFactory ((fun i => (e1 i).stderr) 0) ∈
        r.exceptions_to_retry_on ∧ (0 : Int) < r.retry_count) := by
      rintro ⟨hmem, -⟩
      rw [helig] at hmem
      cases hmem
    unfold DemandToolsCommand.run
    rw [runFrom_raise_step r (fun i => (e1 i).stderr) ie 0 0 hni hs hnr]
    exact ⟨_, rfl⟩

/-- C9 witness: two always-succeeding engines differing only in exit code
(5 versus 7) give identical outcomes; the empty-stderr run completes with
the done line and one callback call; an engine writing to stderr while
exiting 0 makes the run raise. -/
theorem c9_witness :
    DemandToolsCommand.run demoRunner engineOkCode5 true =
      DemandToolsCommand.run demoRunner engineOkCode7 true ∧
    (DemandToolsCommand.run demoRunner engineOkCode5 true).result = Except.ok () ∧
    (DemandToolsCommand.run demoRunner engineOkCode5 true).callbackCalls =
      (if demoRunner.has_post_run_func then 1 else 0) ∧
    doneLine demoRunner ∈ (DemandToolsCommand.run demoRunner engineOkCode5 true).lines ∧
    (∃ exc, (DemandToolsCommand.run demoRunnerNoRetry engineBoomCode0 true).result =
      Except.error exc) := by
  obtain ⟨h1, h2, -⟩ := c9_stderr_decides demoRunner engineOkCode5 engineOkCode7
  obtain ⟨-, -, g3⟩ := c9_stderr_decides demoRunnerNoRetry engineBoomCode0 engineBoomCode0
  obtain ⟨h2a, h2b, h2c⟩ := h2 true (by decide) (by decide)
  exact ⟨h1 (fun i => rfl) true, h2a, h2b, h2c,
    g3 true (by decide) (by decide) (by decide) (by decide)⟩

/-- C10: `stop` is idempotent on the watcher's cancellation state —
iterating the state transition of `stop` any positive number of times
equals applying it once, the resulting watcher reports `stopped`, and
calling `stop` on an already-stopped watcher is an error-free no-op on
the state that merely re-emits the stop notice. -/
theorem c10_stop_idempotent (w : LogWatcherState) (n : Nat) :
    LogWatcher.stopState^[n + 1] w = LogWatcher.stopState w ∧
    LogWatcher.stoppedProp (LogWatcher.stopState w) = true ∧
    LogWatcher.stop (LogWatcher.stopState w) =
      (LogWatcher.stopState w, ["DemandTools LogWatcher stopped."]) := by
  refine ⟨?_, rfl, rfl⟩
  induction n with
  | zero => rfl
  | succ n ih =>
    rw [Function.iterate_succ_apply' LogWatcher.stopState (n + 1) w, ih]
    cases w
    rfl


/-- Membership in a `dropWhile` implies membership in the list. -/
theorem mem_of_mem_dropWhile {α : Type} {p : α → Bool} :
    ∀ {l : List α} {c : α}, c ∈ l.dropWhile p → c ∈ l
  | [], _, h => h
  | d :: rest, c, h => by
    rw [List.dropWhile_cons] at h
    by_cases hp : p d = true
    · rw [if_pos hp] at h
      exact List.mem_cons_of_mem d (mem_of_mem_dropWhile h)
    · rw [if_neg hp] at h
      exact h

/-- Membership in the stripped line implies membership in the line. -/
theorem mem_of_mem_pyStrip {c : Char} {l : List Char} (h : c ∈ pyStrip l) : c ∈ l := by
  unfold pyStrip at h
  rw [List.mem_reverse] at h
  have h2 := mem_of_mem_dropWhile h
  rw [List.mem_reverse] at h2
  exact mem_of_mem_dropWhile h2

/-- If `dropWhile (not a comma)` exhausts the list, it held no comma. -/
theorem no_comma_of_dropWhile_nil :
    ∀ l : List Char, l.dropWhile (fun c => !(c == ',')) = [] → ',' ∉ l
  | [], _ => by simp
  | c :: rest, h => by
    rw [List.dropWhile_cons] at h
    by_cases hc : c = ','
    · subst hc
      simp at h
    · rw [if_pos (by simp [hc])] at h
      have h2 := no_comma_of_dropWhile_nil rest h
      have hc2 : ¬ ',' = c := fun hx => hc hx.symm
      simp [h2, hc2]

/-- If `dropWhile (not a comma)` yields a cons, its head is the first
comma of the list. -/
theorem comma_of_dropWhile_cons :
    ∀ (l : List Char) (x : Char) (xs : List Char),
      l.dropWhile (fun c => !(c == ',')) = x :: xs → x = ',' ∧ ',' ∈ l
  | [], x, xs, h => by cases h
  | c :: rest, x, xs, h => by
    rw [List.dropWhile_cons] at h
    by_cases hc : c = ','
    · subst hc
      rw [if_neg (by simp)] at h
      cases h
      exact ⟨rfl, List.mem_cons_self _ _⟩
    · rw [if_pos (by simp [hc])] at h
      have := comma_of_dropWhile_cons rest x xs h
      exact ⟨this.1, List.mem_cons_of_mem c this.2⟩

/-- The index-based timestamp trim of the source equals the spec-side
split-at-first-comma formulation. -/
theorem trimTimestampField_eq_spec (l : List Char) :
    trimTimestampField l = specStripTimestamp l := by
  unfold trimTimestampField specStripTimestamp
  rw [List.span_eq_take_drop]
  cases hd : l.dropWhile (fun c => !(c == ',')) with
  | nil =>
    rw [if_neg (no_comma_of_dropWhile_nil l hd)]
  | cons x xs =>
    obtain ⟨hx, hm⟩ := comma_of_dropWhile_cons l x xs hd
    rw [if_pos hm]
    rfl

/-- The timestamp strip removes exactly the leading comma-free field and
its delimiting comma. -/
theorem specStripTimestamp_append :
    ∀ (f rest : List Char), ',' ∉ f →
      specStripTimestamp (f ++ ',' :: rest) = rest
  | [], rest, _ => by
    rw [← trimTimestampField_eq_spec]
    unfold trimTimestampField
    rw [List.nil_append]
    rw [if_pos (List.mem_cons_self _ _)]
    rw [List.dropWhile_cons]
    simp
  | c :: f2, rest, hf => by
    have hc : ¬ c = ',' := fun h => hf (by rw [h]; exact List.mem_cons_self _ _)
    have ih := specStripTimestamp_append f2 rest (fun h => hf (List.mem_cons_of_mem c h))
    rw [← trimTimestampField_eq_spec] at ih ⊢
    unfold trimTimestampField at ih ⊢
    have hm2 : ',' ∈ f2 ++ ',' :: rest := by simp
    rw [if_pos hm2] at ih
    have hm1 : ',' ∈ (c :: f2) ++ ',' :: rest := by simp
    rw [if_pos hm1]
    rw [List.cons_append, List.dropWhile_cons, if_pos (by simp [hc])]
    exact ih

/-- The comma-run splitter never yields an empty segment list. -/
theorem specSplitCommaRuns_ne_nil : ∀ l : List Char, specSplitCommaRuns l ≠ []
  | [] => by simp [specSplitCommaRuns]
  | [c] => by
    by_cases hc : c = ','
    · simp [specSplitCommaRuns, hc]
    · simp [specSplitCommaRuns, hc]
  | c :: d :: rest => by
    have ih := specSplitCommaRuns_ne_nil (d :: rest)
    by_cases hc : c = ','
    · subst hc
      by_cases hd : d = ','
      · subst hd
        simpa [specSplitCommaRuns] using ih
      · simp [specSplitCommaRuns, hd]
    · cases hsp : specSplitCommaRuns (d :: rest) with
      | nil => exact absurd hsp ih
      | cons s ss => simp [specSplitCommaRuns, hc, hsp]

/-- Joining after consing an empty leading segment emits one pipe. -/
theorem joinWithPipe_nil_cons (ss : List (List Char)) (h : ss ≠ []) :
    joinWithPipe ([] :: ss) = '|' :: joinWithPipe ss := by
  cases ss with
  | nil => exact absurd rfl h
  | cons s ss2 => rfl

/-- Joining after extending the leading segment prepends the character. -/
theorem joinWithPipe_cons_head (c : Char) (s : List Char) (ss : List (List Char)) :
    joinWithPipe ((c :: s) :: ss) = c :: joinWithPipe (s :: ss) := by
  cases ss with
  | nil => rfl
  | cons s2 ss2 => rfl

/-- The spec-side split-and-join equals the source-side regex model:
replacing every maximal comma run by one pipe is the same as splitting on
comma runs and joining with single pipes. -/
theorem joinWithPipe_specSplit :
    ∀ l : List Char, joinWithPipe (specSplitCommaRuns l) = reSubCommas l
  | [] => rfl
  | [c] => by
    by_cases hc : c = ','
    · simp [specSplitCommaRuns, reSubCommas, hc, joinWithPipe]
    · simp [specSplitCommaRuns, reSubCommas, hc, joinWithPipe]
  | c :: d :: rest => by
    have ih := joinWithPipe_specSplit (d :: rest)
    by_cases hc : c = ','
    · subst hc
      by_cases hd : d = ','
      · subst hd
        simpa [specSplitCommaRuns, reSubCommas] using ih
      · have hne := specSplitCommaRuns_ne_nil (d :: rest)
        rw [show specSplitCommaRuns (',' :: d :: rest) = [] :: specSplitCommaRuns (d :: rest) by
          simp [specSplitCommaRuns, hd]]
        rw [joinWithPipe_nil_cons _ hne, ih]
        simp [reSubCommas, hd]
    · cases hsp : specSplitCommaRuns (d :: rest) with
      | nil => exact absurd hsp (specSplitCommaRuns_ne_nil (d :: rest))
      | cons s ss =>
        rw [show specSplitCommaRuns (c :: d :: rest) = (c :: s) :: ss by
          simp [specSplitCommaRuns, hc, hsp]]
        rw [joinWithPipe_cons_head, ← hsp, ih]
        simp [reSubCommas, hc]

/-- The comma collapse leaves no comma behind. -/
theorem reSubCommas_no_comma : ∀ l : List Char, ',' ∉ reSubCommas l
  | [] => by simp [reSubCommas]
  | [c] => by
    by_cases hc : c = ','
    · simp [reSubCommas, hc]
    · have hc2 : ¬ ',' = c := fun hx => hc hx.symm
      simp [reSubCommas, hc, hc2]
  | c :: d :: rest => by
    have ih := reSubCommas_no_comma (d :: rest)
    by_cases hc : c = ','
    · subst hc
      by_cases hd : d = ','
      · subst hd
        simpa [reSubCommas] using ih
      · simpa [reSubCommas, hd] using ih
    · have hc2 : ¬ ',' = c := fun hx => hc hx.symm
      simp [reSubCommas, hc, hc2, ih]

/-- Replacing runs of newline and quote characters by nothing is the same
as filtering them out. -/
theorem reSubNlQuote_eq_filter :
    ∀ l : List Char, reSubNlQuote l = l.filter (fun c => !(isNlOrQuote c))
  | [] => rfl
  | c :: rest => by
    have ih := reSubNlQuote_eq_filter rest
    cases h : isNlOrQuote c with
    | true => simp [reSubNlQuote, List.filter_cons, h, ih]
    | false => simp [reSubNlQuote, List.filter_cons, h, ih]


/-- C8: every non-blank line read while tailing is forwarded as the fixed
prefix `DTLog>>> ` followed by the normalized line truncated to the
configured maximum length, where normalization (stated spec-side by
`specNormalize`) strips a leading comma-delimited timestamp field if
present, replaces every maximal run of commas by a single pipe, removes
all double-quote and newline characters, and trims surrounding
whitespace; the forwarded text therefore contains no comma, quote or
newline and respects the length bound, and the timestamp strip removes
exactly the leading comma-free field. -/
theorem c8_line_normalization (maxLen : Nat) (line : List Char)
    (hnb : removeNewlines line ≠ []) :
    ∃ out, LogWatcher.processLine maxLen line = some out ∧
      out = "DTLog>>> ".toList ++ (specNormalize line).take maxLen ∧
      ',' ∉ out ∧
      '"' ∉ out ∧
      '\n' ∉ out ∧
      out.length ≤ 9 + maxLen ∧
      (∀ f rest, ',' ∉ f → line = f ++ ',' :: rest →
        specStripTimestamp line = rest) := by
  have hpipe : reSubNlQuote (reSubCommas (trimTimestampField line)) =
      (joinWithPipe (specSplitCommaRuns (specStripTimestamp line))).filter
        (fun c => !(isNlOrQuote c)) := by
    rw [reSubNlQuote_eq_filter, trimTimestampField_eq_spec, joinWithPipe_specSplit]
  have hproc : LogWatcher.processLine maxLen line =
      some ("DTLog>>> ".toList ++ (specNormalize line).take maxLen) := by
    unfold LogWatcher.processLine
    rw [if_neg hnb]
    unfold specNormalize
    simp only [hpipe]
  have hmemSpec : ∀ c : Char, c ∈ (specNormalize line).take maxLen →
      c ∈ (joinWithPipe (specSplitCommaRuns (specStripTimestamp line))).filter
        (fun c => !(isNlOrQuote c)) := by
    intro c hcm
    have h1 : c ∈ specNormalize line := List.mem_of_mem_take hcm
    unfold specNormalize at h1
    exact mem_of_mem_pyStrip h1
  have hlen : ("DTLog>>> ".toList ++ (specNormalize line).take maxLen).length ≤
      9 + maxLen := by
    rw [List.length_append]
    have h9 : ("DTLog>>> ".toList).length = 9 := by decide
    have ht := (specNormalize line).length_take_le maxLen
    omega
  refine ⟨"DTLog>>> ".toList ++ (specNormalize line).take maxLen,
    hproc, rfl, ?_, ?_, ?_, hlen, ?_⟩
  · intro h
    rcases List.mem_append.mp h with hpre | htake
    · exact (by decide : ',' ∉ "DTLog>>> ".toList) hpre
    · have h2 := (List.mem_filter.mp (hmemSpec ',' htake)).1
      rw [joinWithPipe_specSplit] at h2
      exact reSubCommas_no_comma _ h2
  · intro h
    rcases List.mem_append.mp h with hpre | htake
    · exact (by decide : '"' ∉ "DTLog>>> ".toList) hpre
    · have h2 := (List.mem_filter.mp (hmemSpec '"' htake)).2
      simp [isNlOrQuote] at h2
  · intro h
    rcases List.mem_append.mp h with hpre | htake
    · exact (by decide : '\n' ∉ "DTLog>>> ".toList) hpre
    · have h2 := (List.mem_filter.mp (hmemSpec '\n' htake)).2
      simp [isNlOrQuote] at h2
  · intro f rest hf hline
    subst hline
    exact specStripTimestamp_append f rest hf

/-- C8 witness: the spec's example line is forwarded with the timestamp
stripped and the comma run collapsed to one pipe. -/
theorem c8_witness :
    removeNewlines "2024-01-01T00:00:00,foo,,,bar".toList ≠ [] ∧
    ∃ out, LogWatcher.processLine 120 "2024-01-01T00:00:00,foo,,,bar".toList = some out ∧
      out = "DTLog>>> ".toList ++
        (specNormalize "2024-01-01T00:00:00,foo,,,bar".toList).take 120 ∧
      ',' ∉ out ∧
      '"' ∉ out ∧
      '\n' ∉ out ∧
      out.length ≤ 9 + 120 ∧
      (∀ f rest, ',' ∉ f →
        "2024-01-01T00:00:00,foo,,,bar".toList = f ++ ',' :: rest →
        specStripTimestamp "2024-01-01T00:00:00,foo,,,bar".toList = rest) :=
  ⟨by decide, c8_line_normalization 120 "2024-01-01T00:00:00,foo,,,bar".toList (by decide)⟩

end DTWrapper
